import Mathlib

/-!
Verification of the pandaura-runtime-suite backend against its
natural-language specification.

Each definition below is a shallow embedding of one JavaScript function of
the repository, translated clause by clause from the source file named in
its doc comment.  JavaScript strings are modelled as Lean String values,
file contents handed to the line-delta algorithm as List Char (a JS string
is a sequence of characters), wall-clock timestamps as Nat (an abstract
monotone clock; Date.now() and toISOString() become a "now" parameter),
generated uuids as explicitly passed identifier arguments, and Math.random
draws as explicitly passed oracle arguments.  Database tables are Lean
lists kept in insertion order; the uniqueness constraints declared in the
knex migrations are part of the embedded insert operations.
-/

/- ================================================================
   Section 1: line-delta algorithm, src/src/utils/diffUtil.js
   ================================================================ -/

/-- One entry of the "changes" array of a line delta, from
FileStorageUtil.createDelta (src/src/utils/diffUtil.js, lines 589-622):
either an insertion of a content line at a line index or a removal of the
line at a line index. -/
inductive DeltaChange where
  | add (line : Nat) (content : List Char)
  | delete (line : Nat)
deriving DecidableEq, Repr

/-- The line number of a change (the "line" property used as sort key in
FileStorageUtil.applyDelta). -/
def DeltaChange.lineOf : DeltaChange → Nat
  | .add l _ => l
  | .delete l => l

/-- A delta object as produced by createDelta: a type tag (always
"line-delta") and the list of changes. -/
structure LineDelta where
  type : String
  changes : List DeltaChange
deriving DecidableEq, Repr

/-- The tail phase of the createDelta while loop once the old line list is
exhausted (i >= oldLines.length): each remaining new line emits an add at
its cursor position j. -/
def addRun : List (List Char) → Nat → List DeltaChange
  | [], _ => []
  | n :: ns, j => DeltaChange.add j n :: addRun ns (j + 1)

/-- The tail phase of the createDelta while loop once the new line list is
exhausted (j >= newLines.length): each remaining old line emits a delete
at its cursor position i. -/
def deleteRun : List (List Char) → Nat → List DeltaChange
  | [], _ => []
  | _ :: os, i => DeltaChange.delete i :: deleteRun os (i + 1)

/-- The while loop of FileStorageUtil.createDelta
(src/src/utils/diffUtil.js, lines 598-620), operating on the suffixes of
the old and new line lists that start at indices i and j:
matching first lines advance both cursors with no change; differing first
lines emit an add of the new line and advance both cursors (the "looking
ahead" modification case); an exhausted old list leaves a run of adds for
the remaining new lines; an exhausted new list leaves a run of deletes for
the remaining old lines. -/
def createDeltaGo : List (List Char) → List (List Char) → Nat → Nat → List DeltaChange
  | o :: os, n :: ns, i, j =>
    if o = n then createDeltaGo os ns (i + 1) (j + 1)
    else DeltaChange.add j n :: createDeltaGo os ns (i + 1) (j + 1)
  | [], ns, _, j => addRun ns j
  | os, [], i, _ => deleteRun os i

/-- FileStorageUtil.createDelta (src/src/utils/diffUtil.js, lines 589-622):
split both contents on newline characters and run the cursor loop. -/
def createDelta (oldContent newContent : List Char) : LineDelta :=
  { type := "line-delta"
    changes := createDeltaGo (oldContent.splitOn '\n') (newContent.splitOn '\n') 0 0 }

/-- JavaScript Array.prototype.splice(start, 0, item): the start index is
clamped to the array length, then the item is inserted there. -/
def spliceInsert (l : List (List Char)) (idx : Nat) (content : List Char) : List (List Char) :=
  l.insertIdx (min idx l.length) content

/-- JavaScript Array.prototype.splice(start, 1): removes the element at
the start index; out-of-range indices remove nothing (List.eraseIdx has
exactly this clamping behaviour). -/
def spliceRemove (l : List (List Char)) (idx : Nat) : List (List Char) :=
  l.eraseIdx idx

/-- Applying one change to the working line array, from the for-of loop of
FileStorageUtil.applyDelta (src/src/utils/diffUtil.js, lines 639-645). -/
def applyOneChange (res : List (List Char)) : DeltaChange → List (List Char)
  | .add line content => spliceInsert res line content
  | .delete line => spliceRemove res line

/-- FileStorageUtil.applyDelta (src/src/utils/diffUtil.js, lines 627-647):
reject any delta whose type is not "line-delta"; otherwise split the base
content into lines, apply the changes in descending line order (the
JavaScript stable sort with comparator (a, b) => b.line - a.line is
List.insertionSort with the relation "later line keys first"), and join
the resulting lines with newlines. -/
def applyDelta (baseContent : List Char) (delta : LineDelta) : Except String (List Char) :=
  if delta.type ≠ "line-delta" then .error "Unsupported delta type"
  else
    let baseLines := baseContent.splitOn '\n'
    let sorted := delta.changes.insertionSort (fun a b => b.lineOf ≤ a.lineOf)
    let result := sorted.foldl applyOneChange baseLines
    .ok (List.intercalate ['\n'] result)

/- ================================================================
   Section 2: SimulatorEngine hyper-granular features, src/src/ws/socket.js
   ================================================================ -/

/-- One entry of an I/O latency queue: the queued tag value and the
Date.now() timestamp at which queueIOOutputsWithLatency pushed it
(src/src/ws/socket.js, lines 1104-1107). -/
structure IOQueueItem where
  value : Int
  timestamp : Nat
deriving DecidableEq, Repr

/-- Whether a queued item at position i of the queue passes the readiness
test of processIOLatencyQueue (src/src/ws/socket.js, lines 1058-1060):
currentTime >= item.timestamp + calculateIOLatency().  calculateIOLatency
draws fresh random jitter at every evaluation, so the latency is an oracle
indexed by the position of the filtered item. -/
def itemReady (now : Nat) (lat : Nat → Nat) (p : Nat × IOQueueItem) : Bool :=
  decide (p.2.timestamp + lat p.1 ≤ now)

/-- The body of the per-tag loop of SimulatorEngine.processIOLatencyQueue
(src/src/ws/socket.js, lines 1057-1073): filter the queue down to the
ready values; when at least one value is ready, write only the most recent
ready value (readyValues[readyValues.length - 1]) to the runtime and
remove every ready value from the queue (the removal filter keeps exactly
the items the readiness filter rejected); otherwise leave the queue
untouched.  Returns the value written (if any) and the remaining queue. -/
def processTagQueue (now : Nat) (lat : Nat → Nat) (queue : List IOQueueItem) :
    Option IOQueueItem × List IOQueueItem :=
  let ready := (queue.enum.filter (itemReady now lat)).map (·.2)
  if ready.length > 0 then
    (ready.getLast?, (queue.enum.filter (fun p => ¬ itemReady now lat p)).map (·.2))
  else
    (none, queue)

/-- Configuration slice of this.hyperGranular.overflowModeling
(src/src/ws/socket.js, lines 527-535; defaults intMin = -32768,
intMax = 32767). -/
structure OverflowConfig where
  enabled : Bool
  intMin : Int
  intMax : Int
deriving DecidableEq, Repr

/-- The constructor defaults of overflowModeling (src/src/ws/socket.js,
lines 527-535). -/
def defaultOverflowConfig : OverflowConfig :=
  { enabled := true, intMin := -32768, intMax := 32767 }

/-- One record pushed onto overflowModeling.overflowExceptions
(src/src/ws/socket.js, lines 1139-1145).  The JavaScript property named
"variable" is modelled as varName. -/
structure OverflowRecord where
  varName : String
  originalValue : Int
  overflowValue : Int
  timestamp : Nat
  type : String
deriving DecidableEq, Repr

/-- The per-value overflow test and wrap of
SimulatorEngine.updateVariablesWithOverflowCheck (src/src/ws/socket.js,
lines 1126-1136): a value above intMax becomes
intMin + (value - intMax - 1); a value below intMin becomes
intMax - (intMin - value - 1); in-range values are unchanged.  The Bool
reports whether overflow was detected. -/
def overflowWrap (cfg : OverflowConfig) (v : Int) : Int × Bool :=
  if cfg.intMax < v then (cfg.intMin + (v - cfg.intMax - 1), true)
  else if v < cfg.intMin then (cfg.intMax - (cfg.intMin - v - 1), true)
  else (v, false)

/-- The forEach loop of SimulatorEngine.updateVariablesWithOverflowCheck
(src/src/ws/socket.js, lines 1121-1152) over the integer-valued variables
of the compiled program: each overflowing value is replaced by its wrapped
value and one INT_OVERFLOW record is pushed, in iteration order. -/
def updateVarsOverflow (cfg : OverflowConfig) (now : Nat) :
    List (String × Int) → List (String × Int) × List OverflowRecord
  | [] => ([], [])
  | nv :: rest =>
    let w := overflowWrap cfg nv.2
    let acc := updateVarsOverflow cfg now rest
    if w.2 then
      ((nv.1, w.1) :: acc.1,
        { varName := nv.1, originalValue := nv.2, overflowValue := w.1,
          timestamp := now, type := "INT_OVERFLOW" } :: acc.2)
    else
      (nv :: acc.1, acc.2)

/-- SimulatorEngine.updateVariablesWithOverflowCheck (src/src/ws/socket.js,
lines 1115-1153) restricted to integer-valued variables (the code guards
each cell with typeof value === "number" and Number.isInteger(value);
non-integer cells are untouched and are outside this model): gated on
overflowModeling.enabled, then one wrap-and-record pass over the
variables. -/
def updateVariablesWithOverflowCheck (cfg : OverflowConfig) (now : Nat)
    (vars : List (String × Int)) : List (String × Int) × List OverflowRecord :=
  if cfg.enabled then updateVarsOverflow cfg now vars else (vars, [])

/-- The argument object of SimulatorEngine.injectFault
(src/src/ws/socket.js, line 1179). -/
structure FaultConfig where
  target : String
  fault_type : String
  parameter : Int
  duration_ms : Nat
deriving DecidableEq, Repr

/-- The fault object built by SimulatorEngine.injectFault
(src/src/ws/socket.js, lines 1181-1190). -/
structure ActiveFault where
  id : String
  target : String
  type : String
  parameter : Int
  duration : Nat
  startTime : Nat
  endTime : Nat
  active : Bool
deriving DecidableEq, Repr

/-- Fault-specific state stored in this.faultInjection.driftStates
(src/src/ws/socket.js, lines 1197-1208): drift bookkeeping for VALUE_DRIFT,
the captured locked value for LOCK_VALUE. -/
inductive DriftState where
  | drift (originalValue : Int) (driftRate : Int) (startValue : Int) (lastUpdate : Nat)
  | locked (lockedValue : Int)
deriving DecidableEq, Repr

/-- The this.faultInjection state of the engine (src/src/ws/socket.js,
lines 538-542): activeFaults and driftStates are JavaScript Maps keyed by
target tag name, modelled as association lists in insertion order;
faultHistory is an array. -/
structure FaultState where
  activeFaults : List (String × ActiveFault)
  faultHistory : List ActiveFault
  driftStates : List (String × DriftState)
deriving DecidableEq, Repr

/-- JavaScript Map.prototype.set: replace the value of an existing key in
place, otherwise append the new binding. -/
def mapSetFault (k : String) (v : ActiveFault) (m : List (String × ActiveFault)) :
    List (String × ActiveFault) :=
  if m.any (fun p => p.1 = k) then
    m.map (fun p => if p.1 = k then (k, v) else p)
  else
    m ++ [(k, v)]

/-- JavaScript Map.prototype.set for the driftStates map. -/
def mapSetDrift (k : String) (v : DriftState) (m : List (String × DriftState)) :
    List (String × DriftState) :=
  if m.any (fun p => p.1 = k) then
    m.map (fun p => if p.1 = k then (k, v) else p)
  else
    m ++ [(k, v)]

/-- SimulatorEngine.injectFault (src/src/ws/socket.js, lines 1178-1228):
build the fault object (id fault_ plus Date.now(), endTime = startTime
plus duration), store it in activeFaults under the target name with
Map.set, append it to faultHistory, and initialise the fault-specific
drift state.  currentValue is the oracle for getVariableValue(target); the
FORCE_IO_ERROR branch only writes the target_ERROR runtime bit and leaves
this state unchanged. -/
def injectFault (cfg : FaultConfig) (now : Nat) (currentValue : Int)
    (st : FaultState) : FaultState :=
  let fault : ActiveFault :=
    { id := "fault_" ++ toString now
      target := cfg.target
      type := cfg.fault_type
      parameter := cfg.parameter
      duration := cfg.duration_ms
      startTime := now
      endTime := now + cfg.duration_ms
      active := true }
  let st1 : FaultState :=
    { st with
      activeFaults := mapSetFault cfg.target fault st.activeFaults
      faultHistory := st.faultHistory ++ [fault] }
  if cfg.fault_type = "VALUE_DRIFT" then
    { st1 with
      driftStates :=
        mapSetDrift cfg.target
          (.drift currentValue cfg.parameter currentValue now) st1.driftStates }
  else if cfg.fault_type = "LOCK_VALUE" then
    { st1 with
      driftStates := mapSetDrift cfg.target (.locked currentValue) st1.driftStates }
  else
    st1

/- ================================================================
   Section 3: version, snapshot, release and deployment model
   (src/src/models/tagModel.js class VersionModel, and the
   DeploymentModel of src/unnamed/part_004), over the table schemas of
   the versioning migration src/unnamed/part_010 and the deployment
   migration src/src/db/migrations/20241128000004_fix_releases_foreign_keys.js
   ================================================================ -/

/-- A row of the versions table (src/unnamed/part_010), restricted to the
columns the embedded operations read or write: id, project_id, the
version label, and status.  JSON metadata columns are not referenced by
any claim and are not modelled. -/
structure VersionRow where
  id : String
  project_id : String
  version : String
  status : String
deriving DecidableEq, Repr

/-- A row of the version_changelog table (src/unnamed/part_010), as
inserted by VersionModel.createChangelogEntry (src/src/models/tagModel.js,
lines 1580-1593); the details_json column is not modelled. -/
structure ChangelogRow where
  id : String
  version_id : String
  action : String
  actor : String
  timestamp : Nat
deriving DecidableEq, Repr

/-- A row of the snapshots table (src/unnamed/part_010, lines 119-137).
The migration declares unique(project_id, name) and the primary key id. -/
structure SnapshotRow where
  id : String
  project_id : String
  version_id : String
  name : String
  description : Option String
  created_by : String
  created_at : Nat
deriving DecidableEq, Repr

/-- A row of the snapshot_promotions table
(src/src/db/migrations/20241128000004_fix_releases_foreign_keys.js,
lines 194-211), as inserted by DeploymentModel.promoteSnapshot. -/
structure PromotionRow where
  id : String
  snapshot_id : String
  project_id : String
  from_stage : String
  to_stage : String
  promoted_by : String
  promoted_at : Nat
  notes : Option String
  checks_passed : Bool
deriving DecidableEq, Repr

/-- A row of the releases table (src/unnamed/part_010, lines 139-180),
restricted to the columns the embedded operations touch.  The migration
declares the primary key id and unique(project_id, name); columns omitted
by an insert take their schema defaults (signed false, status active,
nullable columns null). -/
structure ReleaseRow where
  id : String
  project_id : String
  snapshot_id : String
  version_id : String
  name : String
  version : String
  description : String
  environment : String
  created_by : String
  created_at : Nat
  signed : Bool
  signature : Option String
  signed_by : Option String
  signed_at : Option Nat
  status : String
  bundle_path : Option String
  bundle_size_bytes : Option Nat
  bundle_checksum : Option String
  linked_deploys : Nat
deriving DecidableEq, Repr

/-- A row of the deploy_records table
(src/src/db/migrations/20241128000004_fix_releases_foreign_keys.js,
lines 46-104), restricted to the columns the embedded operations touch. -/
structure DeployRecord where
  id : String
  project_id : String
  release_id : String
  version_id : String
  snapshot_id : Option String
  deploy_name : String
  environment : String
  strategy : String
  status : String
  initiated_by : String
  approvals_required : Nat
  approval_count : Nat
  estimated_downtime_seconds : Nat
  previous_version_id : Option String
  created_at : Nat
  started_at : Option Nat
  completed_at : Option Nat
  progress_percentage : Nat
  checks_passed : Bool
  checks_total : Nat
  checks_passed_count : Nat
  checks_warning_count : Nat
  checks_failed_count : Nat
  rollback_reason : Option String
deriving DecidableEq, Repr

/-- The relational state shared by the VersionModel and DeploymentModel
operations: each table is a list of rows in insertion order.  Timestamp
columns are filled from the abstract clock, so a row inserted later has a
later timestamp; an orderBy over an insertion timestamp therefore agrees
with list order. -/
structure Db where
  versions : List VersionRow
  version_changelog : List ChangelogRow
  snapshots : List SnapshotRow
  snapshot_promotions : List PromotionRow
  releases : List ReleaseRow
  deploy_records : List DeployRecord
deriving DecidableEq, Repr

/-- VersionModel.updateVersionStatus (src/src/models/tagModel.js, lines
1238-1248): write the requested status on the matching versions row, then
createChangelogEntry appends a status_changed row.  No transition check of
any kind appears in the source; every requested status is written.
entryId is the uuid drawn for the changelog row. -/
def updateVersionStatus (versionId status actor entryId : String) (now : Nat)
    (db : Db) : Db × Option VersionRow :=
  let db' : Db :=
    { db with
      versions :=
        db.versions.map (fun v => if v.id = versionId then { v with status := status } else v)
      version_changelog :=
        db.version_changelog ++
          [{ id := entryId, version_id := versionId, action := "status_changed",
             actor := actor, timestamp := now }] }
  (db', db'.versions.find? (fun v => v.id = versionId))

/-- The argument object of VersionModel.createSnapshot
(src/src/models/tagModel.js, lines 1344-1362). -/
structure SnapshotData where
  projectId : String
  versionId : String
  name : String
  description : Option String
  createdBy : String
deriving DecidableEq, Repr

/-- Insert into the snapshots table.  The knex insert enforces the schema
of src/unnamed/part_010: primary key id and unique(project_id, name); a
violating insert throws, leaving the table unchanged. -/
def insertSnapshotRow (row : SnapshotRow) (table : List SnapshotRow) :
    Except String (List SnapshotRow) :=
  if table.any (fun r => r.id = row.id) then
    .error "UNIQUE constraint failed: snapshots.id"
  else if table.any (fun r => r.project_id = row.project_id ∧ r.name = row.name) then
    .error "UNIQUE constraint failed: snapshots.project_id, snapshots.name"
  else
    .ok (table ++ [row])

/-- VersionModel.createSnapshot (src/src/models/tagModel.js, lines
1344-1362): one insert into snapshots (no application-level duplicate
check; uniqueness of the name within the project is enforced by the
unique(project_id, name) constraint of the migration), then the inserted
row is read back.  snapshotId is the uuid drawn for the row. -/
def createSnapshot (data : SnapshotData) (snapshotId : String) (now : Nat)
    (db : Db) : Except String (Db × SnapshotRow) :=
  let row : SnapshotRow :=
    { id := snapshotId
      project_id := data.projectId
      version_id := data.versionId
      name := data.name
      description := data.description
      created_by := data.createdBy
      created_at := now }
  match insertSnapshotRow row db.snapshots with
  | .error e => .error e
  | .ok table => .ok ({ db with snapshots := table }, row)

/-- The argument object of VersionModel.createRelease
(src/src/models/tagModel.js, lines 1630-1656); the optional stage field
feeds the environment column (releaseData.stage is absent in every caller
in the repository, so environment defaults to main). -/
structure ReleaseData where
  projectId : String
  snapshotId : String
  versionId : String
  name : String
  version : String
  description : String
  createdBy : String
  stage : Option String
deriving DecidableEq, Repr

/-- Insert into the releases table under the constraints of
src/unnamed/part_010: primary key id and unique(project_id, name). -/
def insertReleaseRow (row : ReleaseRow) (table : List ReleaseRow) :
    Except String (List ReleaseRow) :=
  if table.any (fun r => r.id = row.id) then
    .error "UNIQUE constraint failed: releases.id"
  else if table.any (fun r => r.project_id = row.project_id ∧ r.name = row.name) then
    .error "UNIQUE constraint failed: releases.project_id, releases.name"
  else
    .ok (table ++ [row])

/-- The effective VersionModel.createRelease: the class body of
VersionModel in src/src/models/tagModel.js contains two methods with this
name (lines 1410-1471 and lines 1630-1656); by JavaScript class semantics
the later definition shadows the earlier one, so every call dispatches to
the definition at lines 1630-1656.  That definition inserts a releases row
with signed = false, no signature, no bundle, environment =
releaseData.stage or main, status active, and does not touch the versions
table; on a constraint violation the catch block rethrows with a
Failed-to-create-release message. -/
def createRelease (d : ReleaseData) (releaseId : String) (now : Nat)
    (db : Db) : Except String (Db × ReleaseRow) :=
  let row : ReleaseRow :=
    { id := releaseId
      project_id := d.projectId
      snapshot_id := d.snapshotId
      version_id := d.versionId
      name := d.name
      version := d.version
      description := d.description
      environment := (d.stage.getD "main")
      created_by := d.createdBy
      created_at := now
      signed := false
      signature := none
      signed_by := none
      signed_at := none
      status := "active"
      bundle_path := none
      bundle_size_bytes := none
      bundle_checksum := none
      linked_deploys := 0 }
  match insertReleaseRow row db.releases with
  | .error e => .error ("Failed to create release: " ++ e)
  | .ok table => .ok ({ db with releases := table }, row)

/-- The shadowed first definition of VersionModel.createRelease
(src/src/models/tagModel.js, lines 1410-1471), unreachable at runtime
because the definition at lines 1630-1656 overrides it: build a release
bundle (bundlePath, bundleSize and bundleChecksum are the oracle for
storage.createReleaseBundle), compute a sha256 signature over
id : bundleChecksum : createdBy : now (sha256hex is the hash oracle),
insert the row signed with status active, and transition the underlying
version to released via updateVersionStatus. -/
def createReleaseShadowed (d : ReleaseData) (releaseId : String) (now : Nat)
    (bundlePath : String) (bundleSize : Nat) (bundleChecksum : String)
    (sha256hex : String → String) (entryId : String)
    (db : Db) : Except String (Db × ReleaseRow) :=
  let signatureData :=
    releaseId ++ ":" ++ bundleChecksum ++ ":" ++ d.createdBy ++ ":" ++ toString now
  let row : ReleaseRow :=
    { id := releaseId
      project_id := d.projectId
      snapshot_id := d.snapshotId
      version_id := d.versionId
      name := d.name
      version := d.version
      description := d.description
      environment := (d.stage.getD "main")
      created_by := d.createdBy
      created_at := now
      signed := true
      signature := some (sha256hex signatureData)
      signed_by := some d.createdBy
      signed_at := some now
      status := "active"
      bundle_path := some bundlePath
      bundle_size_bytes := some bundleSize
      bundle_checksum := some bundleChecksum
      linked_deploys := 0 }
  match insertReleaseRow row db.releases with
  | .error e => .error e
  | .ok table =>
    let db1 : Db := { db with releases := table }
    let db2 := (updateVersionStatus d.versionId "released" d.createdBy entryId now db1).1
    .ok (db2, row)

/-- DeploymentModel.validateEnvironmentProgression (src/unnamed/part_004,
lines 261-291): a null snapshotId skips the whole check (direct version
deploys); otherwise the target environment must occur in the progression
order list, a production or prod target requires some prior promotion of
the snapshot with to_stage staging, and a staging target requires some
prior promotion with to_stage qa. -/
def validateEnvironmentProgression (snapshotId : Option String)
    (targetEnvironment : String) (promotions : List PromotionRow) :
    Except String Unit :=
  match snapshotId with
  | none => .ok ()
  | some sid =>
    let progressionOrder := ["dev", "qa", "staging", "production", "prod"]
    if ¬ progressionOrder.contains targetEnvironment then
      .error ("Invalid environment: " ++ targetEnvironment)
    else
      let promos := promotions.filter (fun p => p.snapshot_id = sid)
      if targetEnvironment = "production" ∨ targetEnvironment = "prod" then
        if promos.any (fun p => p.to_stage = "staging") then .ok ()
        else .error "Production deployment requires prior staging promotion"
      else if targetEnvironment = "staging" then
        if promos.any (fun p => p.to_stage = "qa") then .ok ()
        else .error "Staging deployment requires prior QA promotion"
      else .ok ()

/-- The argument object of DeploymentModel.createDeployment
(src/unnamed/part_004, lines 197-209). -/
structure DeploymentData where
  projectId : String
  releaseId : String
  versionId : String
  snapshotId : Option String
  deployName : String
  environment : String
  strategy : String
  initiatedBy : String
  estimatedDowntime : Nat
deriving DecidableEq, Repr

/-- DeploymentModel.createDeployment (src/unnamed/part_004, lines
196-256): run validateEnvironmentProgression (skipped entirely for a null
snapshotId), look up the latest successful deployment of the same project
and environment for rollback, compute approvalsRequired (2 for production
or prod, 1 for staging, else 0), and insert the deploy_records row with
status pending, zero approvals and the schema default checks_passed =
false.  DeploymentModel.runSafetyChecks (lines 335-396) then runs the
eight simulated checks, all of which return passed (no simulated check
ever returns failed), and updates the row with checks_passed = true and
the check counters.  The deploy_approvals and deploy_checks side tables
are not modelled; no claim reads them.  deployId is the uuid drawn for
the row. -/
def createDeployment (d : DeploymentData) (deployId : String) (now : Nat)
    (db : Db) : Except String (Db × DeployRecord) :=
  match validateEnvironmentProgression d.snapshotId d.environment db.snapshot_promotions with
  | .error e => .error e
  | .ok _ =>
    let previousDeploy :=
      (db.deploy_records.filter (fun r =>
        r.project_id = d.projectId ∧ r.environment = d.environment ∧
          r.status = "success")).getLast?
    let approvalsRequired : Nat :=
      if d.environment = "production" ∨ d.environment = "prod" then 2
      else if d.environment = "staging" then 1
      else 0
    let inserted : DeployRecord :=
      { id := deployId
        project_id := d.projectId
        release_id := d.releaseId
        version_id := d.versionId
        snapshot_id := d.snapshotId
        deploy_name := d.deployName
        environment := d.environment
        strategy := d.strategy
        status := "pending"
        initiated_by := d.initiatedBy
        approvals_required := approvalsRequired
        approval_count := 0
        estimated_downtime_seconds := d.estimatedDowntime
        previous_version_id := previousDeploy.map (fun r => r.version_id) |>.join
        created_at := now
        started_at := none
        completed_at := none
        progress_percentage := 0
        checks_passed := false
        checks_total := 0
        checks_passed_count := 0
        checks_warning_count := 0
        checks_failed_count := 0
        rollback_reason := none }
    let afterChecks : DeployRecord :=
      { inserted with
        checks_passed := true
        checks_total := 8
        checks_passed_count := 8
        checks_warning_count := 0
        checks_failed_count := 0 }
    .ok ({ db with deploy_records := db.deploy_records ++ [afterChecks] }, afterChecks)

/-- The observable outcome of DeploymentModel.startDeployment: the final
deploy_records row, the sequence of values written to its status column,
and the error thrown, if any (a thrown error aborts the remaining writes
but keeps those already made, as each await this.db(...).update is an
independent statement). -/
structure StartDeploymentResult where
  record : DeployRecord
  statusTrace : List String
  error : Option String
deriving DecidableEq, Repr

/-- DeploymentModel.startDeployment (src/unnamed/part_004, lines 538-569)
together with the calls it makes: throw if checks_passed is not set, throw
if approval_count < approvals_required, otherwise update the row to status
running with progress 0; executeDeploymentSteps (lines 574-623) then walks
progress to 100 and updates the row to status success, and
runPostDeployHealthChecks (lines 642-664) either passes (healthOk, the
oracle for the Math.random() > 0.1 draw) or triggers
executeRollback (lines 671-730), which throws when previous_version_id is
null and otherwise updates the row to status rolled-back.  Deploy log
rows are not modelled; no claim reads them. -/
def startDeployment (healthOk : Bool) (now : Nat) (r : DeployRecord) :
    StartDeploymentResult :=
  if r.checks_passed = false then
    { record := r, statusTrace := [], error := some "Cannot deploy: safety checks failed" }
  else if r.approval_count < r.approvals_required then
    { record := r, statusTrace := [], error := some "Cannot deploy: insufficient approvals" }
  else
    let running : DeployRecord :=
      { r with status := "running", started_at := some now, progress_percentage := 0 }
    let succeeded : DeployRecord :=
      { running with
        status := "success", progress_percentage := 100, completed_at := some now }
    if healthOk then
      { record := succeeded, statusTrace := ["running", "success"], error := none }
    else
      match r.previous_version_id with
      | none =>
        { record := succeeded
          statusTrace := ["running", "success"]
          error := some "No previous version available for rollback" }
      | some _ =>
        { record :=
            { succeeded with
              status := "rolled-back", rollback_reason := some "Health checks failed" }
          statusTrace := ["running", "success", "rolled-back"]
          error := none }

/-- The result object of DeploymentModel.promoteSnapshot
(src/unnamed/part_004, lines 816-824). -/
structure PromoteResult where
  success : Bool
  promotionId : String
  fromStage : String
  toStage : String
  releaseId : Option String
  releaseCreated : Bool
deriving DecidableEq, Repr

/-- DeploymentModel.promoteSnapshot (src/unnamed/part_004, lines 743-825):
look up the snapshot and its version (throwing when either is missing),
derive fromStage from the most recent prior promotion of the snapshot
(default dev), insert the promotion row with checks_passed = true, and --
only when toStage is staging or production -- mint a release through the
effective VersionModel.createRelease (whose releaseData carries no stage
field, so the row is first inserted with environment main) and then update
that release row's environment to toStage.  No check of the promotion
history against the requested stage appears anywhere in the function.
promotionId and releaseId are the uuids drawn for the new rows. -/
def promoteSnapshot (sid toStage promotedBy : String) (notes : Option String)
    (promotionId releaseId : String) (now : Nat) (db : Db) :
    Except String (Db × PromoteResult) :=
  match db.snapshots.find? (fun s => s.id = sid) with
  | none => .error "Snapshot not found"
  | some snapshot =>
    match db.versions.find? (fun v => v.id = snapshot.version_id) with
    | none => .error "Version not found for snapshot"
    | some version =>
      let lastPromotion :=
        (db.snapshot_promotions.filter (fun p => p.snapshot_id = sid)).getLast?
      let fromStage := match lastPromotion with
        | some p => p.to_stage
        | none => "dev"
      let promo : PromotionRow :=
        { id := promotionId
          snapshot_id := sid
          project_id := snapshot.project_id
          from_stage := fromStage
          to_stage := toStage
          promoted_by := promotedBy
          promoted_at := now
          notes := notes
          checks_passed := true }
      let db1 : Db := { db with snapshot_promotions := db.snapshot_promotions ++ [promo] }
      if toStage = "staging" ∨ toStage = "production" then
        let rd : ReleaseData :=
          { projectId := snapshot.project_id
            snapshotId := sid
            versionId := version.id
            name := snapshot.name ++ "-" ++ toStage
            version := version.version
            description :=
              (snapshot.description.getD "") ++ " - Promoted to " ++ toStage ++
                (match notes with | some n => ": " ++ n | none => "")
            createdBy := promotedBy
            stage := none }
        match createRelease rd releaseId now db1 with
        | .error e => .error e
        | .ok (db2, rel) =>
          let db3 : Db :=
            { db2 with
              releases := db2.releases.map (fun r =>
                if r.id = rel.id then { r with environment := toStage } else r) }
          .ok (db3,
            { success := true, promotionId := promotionId, fromStage := fromStage,
              toStage := toStage, releaseId := some rel.id, releaseCreated := true })
      else
        .ok (db1,
          { success := true, promotionId := promotionId, fromStage := fromStage,
            toStage := toStage, releaseId := none, releaseCreated := false })

/- ================================================================
   Section 4: helper notions and concrete fixtures used by the theorems
   ================================================================ -/

/-- An ascending run of delete changes starting at line s, as emitted by
the tail of createDeltaGo once the new line list is exhausted. -/
def ascDeletes (s n : Nat) : List DeltaChange :=
  (List.range n).map (fun k => DeltaChange.delete (s + k))

/-- The same run of delete changes in descending line order, the order in
which applyDelta applies them. -/
def descDeletes (s n : Nat) : List DeltaChange :=
  (ascDeletes s n).reverse

/-- No two snapshots of one project share a name (the invariant the
unique(project_id, name) constraint of src/unnamed/part_010 maintains). -/
def UniqueSnapshotNames (table : List SnapshotRow) : Prop :=
  table.Pairwise (fun a b => ¬(a.project_id = b.project_id ∧ a.name = b.name))

/-- One createSnapshot request: the data plus the drawn uuid and clock. -/
structure SnapshotOp where
  data : SnapshotData
  snapshotId : String
  now : Nat
deriving DecidableEq, Repr

/-- Run one createSnapshot request against the database; a thrown
constraint violation leaves the database unchanged. -/
def snapshotOpStep (db : Db) (op : SnapshotOp) : Db :=
  match createSnapshot op.data op.snapshotId op.now db with
  | .ok x => x.1
  | .error _ => db

/-- Run a sequence of createSnapshot requests. -/
def applySnapshotOps (ops : List SnapshotOp) (db : Db) : Db :=
  ops.foldl snapshotOpStep db

/-- Fixture: a snapshot of project p1 pointing at version v1. -/
def exSnapshot : SnapshotRow :=
  { id := "s1", project_id := "p1", version_id := "v1", name := "snap",
    description := none, created_by := "bob", created_at := 0 }

/-- Fixture: version v1 of project p1 in status staged. -/
def exVersion : VersionRow :=
  { id := "v1", project_id := "p1", version := "1.0.0", status := "staged" }

/-- Fixture: a database holding exactly exVersion and exSnapshot, with no
promotion history, no releases and no deployments. -/
def exDb : Db :=
  { versions := [exVersion], version_changelog := [], snapshots := [exSnapshot],
    snapshot_promotions := [], releases := [], deploy_records := [] }

/-- Fixture: exDb with version v1 already in status released. -/
def exReleasedDb : Db :=
  { exDb with versions := [{ exVersion with status := "released" }] }

/-- Fixture: release data for v1 as a caller of the effective
createRelease would pass it (no stage field is ever supplied). -/
def exReleaseData : ReleaseData :=
  { projectId := "p1", snapshotId := "s1", versionId := "v1", name := "rel-one",
    version := "1.0.0", description := "first release", createdBy := "alice",
    stage := none }

/-- Fixture: a pending production deployment with both approvals granted
and safety checks passed. -/
def exReadyRecord : DeployRecord :=
  { id := "d1", project_id := "p1", release_id := "r1", version_id := "v1",
    snapshot_id := none, deploy_name := "deploy-one", environment := "production",
    strategy := "atomic", status := "pending", initiated_by := "alice",
    approvals_required := 2, approval_count := 2, estimated_downtime_seconds := 15,
    previous_version_id := none, created_at := 0, started_at := none,
    completed_at := none, progress_percentage := 0, checks_passed := true,
    checks_total := 8, checks_passed_count := 8, checks_warning_count := 0,
    checks_failed_count := 0, rollback_reason := none }

/-- Fixture: the same deployment with safety checks not passed. -/
def exUncheckedRecord : DeployRecord :=
  { exReadyRecord with checks_passed := false }

/-- Fixture: the same deployment with only one of two approvals. -/
def exUnderApprovedRecord : DeployRecord :=
  { exReadyRecord with approval_count := 1 }

/-- Fixture: deployment data for a direct version deploy (no snapshot). -/
def exDeployNoSnapshot : DeploymentData :=
  { projectId := "p1", releaseId := "r1", versionId := "v1", snapshotId := none,
    deployName := "deploy-one", environment := "production", strategy := "atomic",
    initiatedBy := "alice", estimatedDowntime := 15 }

/-- Fixture: the same deployment data but tied to snapshot s1. -/
def exDeployWithSnapshot : DeploymentData :=
  { exDeployNoSnapshot with snapshotId := some "s1" }

/-- Fixture: a VALUE_DRIFT fault request against tag T. -/
def exDriftConfig : FaultConfig :=
  { target := "T", fault_type := "VALUE_DRIFT", parameter := 5, duration_ms := 60000 }

/-- Fixture: a LOCK_VALUE fault request against the same tag T. -/
def exLockConfig : FaultConfig :=
  { target := "T", fault_type := "LOCK_VALUE", parameter := 0, duration_ms := 60000 }

/-- Fixture: the empty fault-injection state. -/
def exFaultState0 : FaultState :=
  { activeFaults := [], faultHistory := [], driftStates := [] }

/-- Fixture: state after injecting the VALUE_DRIFT fault on T. -/
def exFaultState1 : FaultState := injectFault exDriftConfig 0 10 exFaultState0

/-- Fixture: state after then injecting the LOCK_VALUE fault on T. -/
def exFaultState2 : FaultState := injectFault exLockConfig 1 10 exFaultState1

/-- Fixture: a createSnapshot request reusing the taken name snap in
project p1. -/
def exDupData : SnapshotData :=
  { projectId := "p1", versionId := "v9", name := "snap",
    description := none, createdBy := "carol" }

/-- Fixture: the same request packaged as an operation. -/
def exDupOp : SnapshotOp :=
  { data := exDupData, snapshotId := "s9", now := 7 }

/- ================================================================
   Section 5: theorems
   ================================================================ -/

/-- C1: startDeployment moves a deployment record to status running
exactly when checks_passed is set and approval_count has reached
approvals_required; when either gate fails it throws and the record (in
particular its status) is left untouched, never entering running. -/
theorem startDeployment_running_gate (healthOk : Bool) (now : Nat) (r : DeployRecord) :
    ("running" ∈ (startDeployment healthOk now r).statusTrace ↔
      (r.checks_passed = true ∧ r.approvals_required ≤ r.approval_count))
    ∧ ((r.checks_passed = false ∨ r.approval_count < r.approvals_required) →
        (startDeployment healthOk now r).record = r ∧
        (startDeployment healthOk now r).error.isSome = true ∧
        (startDeployment healthOk now r).record.status = r.status) := by
  rcases hc : r.checks_passed
  · simp [startDeployment, hc]
  · by_cases ha : r.approval_count < r.approvals_required
    · simp [startDeployment, hc, ha]
    · cases healthOk <;> rcases hpv : r.previous_version_id <;>
        simp [startDeployment, hc, ha, hpv] <;> omega

/-- C1 witness: on a concrete record lacking safety checks,
startDeployment throws and the record is unchanged. -/
theorem startDeployment_running_gate_witness :
    (startDeployment true 0 exUncheckedRecord).record = exUncheckedRecord ∧
    (startDeployment true 0 exUncheckedRecord).error.isSome = true ∧
    (startDeployment true 0 exUncheckedRecord).record.status = exUncheckedRecord.status :=
  (startDeployment_running_gate true 0 exUncheckedRecord).2 (Or.inl rfl)

/-- C10: createDeployment skips the environment-progression check whenever
snapshotId is null: the deploy record is created with status pending for
any environment (production included) even with an empty promotion
history; a progression precondition can only be raised when a snapshotId
is supplied, as on a production deploy of a snapshot with no prior staging
promotion. -/
theorem createDeployment_progression_only_with_snapshot :
    (∀ (db : Db) (d : DeploymentData) (deployId : String) (now : Nat),
      d.snapshotId = none →
      ∃ db' rec, createDeployment d deployId now db = .ok (db', rec) ∧
        rec.status = "pending" ∧ rec.id = deployId ∧
        db'.deploy_records = db.deploy_records ++ [rec])
    ∧ (∀ (db : Db) (d : DeploymentData) (deployId : String) (now : Nat) (sid : String),
        d.snapshotId = some sid →
        (d.environment = "production" ∨ d.environment = "prod") →
        (∀ p ∈ db.snapshot_promotions, p.snapshot_id = sid → p.to_stage ≠ "staging") →
        createDeployment d deployId now db =
          .error "Production deployment requires prior staging promotion") := by
  constructor
  · intro db d deployId now hnone
    have hval : validateEnvironmentProgression d.snapshotId d.environment
        db.snapshot_promotions = .ok () := by
      rw [hnone]
      rfl
    simp only [createDeployment, hval]
    exact ⟨_, _, rfl, rfl, rfl, rfl⟩
  · intro db d deployId now sid hsid henv hnostaging
    have hany : (db.snapshot_promotions.filter
        (fun p => p.snapshot_id = sid)).any (fun p => p.to_stage = "staging") = false := by
      rw [List.any_eq_false]
      intro p hp
      rw [List.mem_filter] at hp
      have := hnostaging p hp.1 (by simpa using hp.2)
      simpa using this
    rcases henv with h | h <;>
      simp [createDeployment, validateEnvironmentProgression, hsid, h, hany]

/-- C10 witness: concretely, a production deployment with no snapshot is
created pending against a database with no promotions at all, and the same
deployment tied to snapshot s1 is rejected. -/
theorem createDeployment_progression_only_with_snapshot_witness :
    (∃ db' rec, createDeployment exDeployNoSnapshot "d2" 4 exDb = .ok (db', rec) ∧
      rec.status = "pending" ∧ rec.id = "d2" ∧
      db'.deploy_records = exDb.deploy_records ++ [rec])
    ∧ createDeployment exDeployWithSnapshot "d2" 4 exDb =
        .error "Production deployment requires prior staging promotion" :=
  ⟨createDeployment_progression_only_with_snapshot.1 exDb exDeployNoSnapshot "d2" 4 rfl,
   createDeployment_progression_only_with_snapshot.2 exDb exDeployWithSnapshot "d2" 4 "s1"
     rfl (Or.inl rfl) (by simp [exDb])⟩

/-- C2 counterexample: promoting snapshot s1 straight from dev to staging,
with an empty promotion history, does not fail with a precondition error:
it succeeds, records fromStage dev, and mints a release whose environment
is staging. -/
theorem promoteSnapshot_direct_staging_succeeds :
    (promoteSnapshot "s1" "staging" "alice" none "pr1" "rel1" 5 exDb).toOption.map
      (fun x => (x.2.success, x.2.fromStage, x.2.releaseCreated,
        x.1.releases.map (fun r => r.environment))) =
      some (true, "dev", true, ["staging"]) := by
  rfl

/-- C2 amended: promoteSnapshot enforces no stage-progression precondition
at all.  Whenever the snapshot and its version exist and the minted
release's id and (project, name) pair are fresh, promotion to staging or
production succeeds -- with any promotion history whatsoever, the empty
one included -- and mints a release whose environment is the target
stage.  The qa-before-staging and staging-before-production gates live
only in DeploymentModel.validateEnvironmentProgression, which only
createDeployment calls. -/
theorem promoteSnapshot_no_progression_gate
    (db : Db) (sid toStage promotedBy : String) (notes : Option String)
    (promotionId releaseId : String) (now : Nat)
    (snapshot : SnapshotRow) (version : VersionRow)
    (hs : db.snapshots.find? (fun s => s.id = sid) = some snapshot)
    (hv : db.versions.find? (fun v => v.id = snapshot.version_id) = some version)
    (hstage : toStage = "staging" ∨ toStage = "production")
    (hid : ∀ r ∈ db.releases, r.id ≠ releaseId)
    (hname : ∀ r ∈ db.releases,
      ¬(r.project_id = snapshot.project_id ∧ r.name = snapshot.name ++ "-" ++ toStage)) :
    ∃ db' res, promoteSnapshot sid toStage promotedBy notes promotionId releaseId now db =
        .ok (db', res)
      ∧ res.success = true ∧ res.releaseCreated = true ∧ res.toStage = toStage
      ∧ ∃ rel ∈ db'.releases, rel.id = releaseId ∧ rel.environment = toStage ∧
          rel.snapshot_id = sid := by
  have h1 : (db.releases.any (fun r => r.id = releaseId)) = false := by
    rw [List.any_eq_false]
    intro r hr
    simpa using hid r hr
  have h2 : (db.releases.any (fun r => r.project_id = snapshot.project_id ∧
      r.name = snapshot.name ++ "-" ++ toStage)) = false := by
    rw [List.any_eq_false]
    intro r hr
    simpa using hname r hr
  simp only [promoteSnapshot, hs, hv, if_pos hstage, createRelease, insertReleaseRow, h1, h2,
    Bool.false_eq_true, if_false]
  refine ⟨_, _, rfl, rfl, rfl, rfl, ?_⟩
  refine ⟨_, List.mem_map_of_mem _ (List.mem_append_right _ (List.mem_singleton.mpr rfl)), ?_⟩
  simp

/-- C2 witness: the amended statement instantiated on the concrete fixture
database, promoting s1 to staging with an empty promotion history. -/
theorem promoteSnapshot_no_progression_gate_witness :
    ∃ db' res, promoteSnapshot "s1" "staging" "alice" none "pw1" "relw1" 6 exDb =
        .ok (db', res)
      ∧ res.success = true ∧ res.releaseCreated = true ∧ res.toStage = "staging"
      ∧ ∃ rel ∈ db'.releases, rel.id = "relw1" ∧ rel.environment = "staging" ∧
          rel.snapshot_id = "s1" :=
  promoteSnapshot_no_progression_gate exDb "s1" "staging" "alice" none "pw1" "relw1" 6
    exSnapshot exVersion rfl rfl (Or.inl rfl)
    (by simp [exDb]) (by simp [exDb])

/-- C3: evaluating the effective createRelease (the second definition of
the method, which shadows the first) at a concrete call: the inserted
release row has signed = false, carries no signature and no bundle, has
status active -- and the underlying version v1 is left in status staged,
never transitioned to released.  The signed-bundle behaviour the claim
describes lives only in the shadowed first definition, which is
unreachable. -/
theorem createRelease_effective_is_unsigned :
    (createRelease exReleaseData "rel1" 5 exDb).toOption.map
      (fun x => (x.2.signed, x.2.signature, x.2.bundle_path, x.2.bundle_checksum,
        x.2.status, x.1.versions.map (fun v => v.status))) =
      some (false, none, none, none, "active", ["staged"]) := by
  rfl

/-- Supporting fact (not a claim): the shadowed first definition of
createRelease, had it been dispatched, would have produced a signed row
referencing the stored bundle and transitioned the version to released,
exactly as the claim and the spec describe. -/
theorem createReleaseShadowed_matches_spec :
    (createReleaseShadowed exReleaseData "rel1" 5 "bundles/rel1.tar" 512 "cafe"
        (fun s => "h-" ++ s) "e1" exDb).toOption.map
      (fun x => (x.2.signed, x.2.signature, x.2.bundle_path, x.2.bundle_checksum,
        x.2.status, x.1.versions.map (fun v => v.status))) =
      some (true, some ("h-" ++ ("rel1:cafe:alice:" ++ toString 5)), some "bundles/rel1.tar",
        some "cafe", "active", ["released"]) := by
  rfl

/-- C4 counterexample: updateVersionStatus happily performs the forbidden
transition released to draft: on a database whose only version is
released, requesting draft rewrites the stored status to draft instead of
rejecting the request and leaving it unchanged. -/
theorem updateVersionStatus_allows_released_to_draft :
    ((updateVersionStatus "v1" "draft" "alice" "e1" 3 exReleasedDb).1.versions.map
        (fun v => v.status)) = ["draft"] ∧
    ((updateVersionStatus "v1" "draft" "alice" "e1" 3 exReleasedDb).2.map
        (fun v => v.status)) = some "draft" := by
  exact ⟨rfl, rfl⟩

/-- C4 amended: updateVersionStatus enforces no transition discipline at
all: for every stored version and every requested status -- permitted
triple or not -- it writes the requested status on the matching row,
leaves every other row alone, and appends exactly one status_changed
changelog entry. -/
theorem updateVersionStatus_writes_unconditionally
    (db : Db) (versionId status actor entryId : String) (now : Nat) :
    (∀ v ∈ db.versions, v.id = versionId →
      { v with status := status } ∈ (updateVersionStatus versionId status actor entryId now db).1.versions)
    ∧ (∀ v ∈ db.versions, v.id ≠ versionId →
        v ∈ (updateVersionStatus versionId status actor entryId now db).1.versions)
    ∧ (updateVersionStatus versionId status actor entryId now db).1.version_changelog.length =
        db.version_changelog.length + 1
    ∧ ((updateVersionStatus versionId status actor entryId now db).1.version_changelog.getLast?).map
        (fun c => c.action) = some "status_changed" := by
  refine ⟨?_, ?_, ?_, ?_⟩
  · intro v hv hid
    simp only [updateVersionStatus]
    exact List.mem_map.mpr ⟨v, hv, by simp [hid]⟩
  · intro v hv hid
    simp only [updateVersionStatus]
    exact List.mem_map.mpr ⟨v, hv, by simp [hid]⟩
  · simp [updateVersionStatus]
  · simp [updateVersionStatus]

/-- C4 witness: the amended statement instantiated on the released fixture
version, requesting the forbidden transition to draft. -/
theorem updateVersionStatus_writes_unconditionally_witness :
    ({ exVersion with status := "draft" } ∈
      (updateVersionStatus "v1" "draft" "alice" "e1" 3 exReleasedDb).1.versions)
    ∧ (updateVersionStatus "v1" "draft" "alice" "e1" 3 exReleasedDb).1.version_changelog.length =
        exReleasedDb.version_changelog.length + 1 :=
  ⟨(updateVersionStatus_writes_unconditionally exReleasedDb "v1" "draft" "alice" "e1" 3).1
      { exVersion with status := "released" } (by simp [exReleasedDb]) rfl,
   (updateVersionStatus_writes_unconditionally exReleasedDb "v1" "draft" "alice" "e1" 3).2.2.1⟩

/-- Helper: inserting a snapshot row whose (project, name) pair is already
present violates the unique(project_id, name) constraint. -/
theorem insertSnapshotRow_dup (row : SnapshotRow) (table : List SnapshotRow)
    (h : ∃ r ∈ table, r.project_id = row.project_id ∧ r.name = row.name) :
    ∃ e, insertSnapshotRow row table = .error e := by
  unfold insertSnapshotRow
  split
  · exact ⟨_, rfl⟩
  · split
    · exact ⟨_, rfl⟩
    · next h2 =>
      exfalso
      obtain ⟨r, hr, hpr, hnm⟩ := h
      refine h2 ?_
      rw [List.any_eq_true]
      exact ⟨r, hr, by simp [hpr, hnm]⟩

/-- Helper: a successful insert extends the table with the new row and
implies the (project, name) guard was clear. -/
theorem insertSnapshotRow_ok (row : SnapshotRow) (table table' : List SnapshotRow)
    (h : insertSnapshotRow row table = .ok table') :
    table' = table ++ [row] ∧
    (table.any (fun r => r.project_id = row.project_id ∧ r.name = row.name)) = false := by
  revert h
  unfold insertSnapshotRow
  split
  · intro h
    cases h
  · split
    · intro h
      cases h
    · next h2 =>
      intro h
      cases h
      exact ⟨rfl, by simpa using h2⟩

/-- C6: snapshot names are unique per project.  First, inserting a
snapshot whose (project, name) pair is already taken fails (the
unique(project_id, name) constraint of the snapshots table is the only
enforcement point: createSnapshot itself performs no lookup).  Second,
the per-project name-uniqueness invariant is preserved by every sequence
of createSnapshot operations. -/
theorem createSnapshot_name_unique_per_project :
    (∀ (db : Db) (data : SnapshotData) (sid : String) (now : Nat),
      (∃ r ∈ db.snapshots, r.project_id = data.projectId ∧ r.name = data.name) →
      ∃ e, createSnapshot data sid now db = .error e)
    ∧ (∀ (ops : List SnapshotOp) (db : Db),
        UniqueSnapshotNames db.snapshots →
        UniqueSnapshotNames (applySnapshotOps ops db).snapshots) := by
  constructor
  · intro db data sid now hdup
    simp only [createSnapshot]
    obtain ⟨e, he⟩ :=
      insertSnapshotRow_dup
        { id := sid, project_id := data.projectId, version_id := data.versionId,
          name := data.name, description := data.description,
          created_by := data.createdBy, created_at := now } db.snapshots hdup
    rw [he]
    exact ⟨e, rfl⟩
  · intro ops
    induction ops with
    | nil => intro db h; exact h
    | cons op rest ih =>
      intro db h
      simp only [applySnapshotOps, List.foldl_cons]
      apply ih
      unfold snapshotOpStep
      rcases hstep : createSnapshot op.data op.snapshotId op.now db with e | pr
      · exact h
      · revert hstep
        simp only [createSnapshot]
        rcases hins : insertSnapshotRow
            { id := op.snapshotId, project_id := op.data.projectId,
              version_id := op.data.versionId, name := op.data.name,
              description := op.data.description, created_by := op.data.createdBy,
              created_at := op.now } db.snapshots with e | table
        · intro hstep
          cases hstep
        · intro hstep
          cases hstep
          obtain ⟨hshape, hclear⟩ := insertSnapshotRow_ok _ _ _ hins
          show UniqueSnapshotNames table
          rw [hshape]
          rw [List.any_eq_false] at hclear
          unfold UniqueSnapshotNames at h ⊢
          rw [List.pairwise_append]
          refine ⟨h, List.pairwise_singleton _ _, ?_⟩
          intro a ha b hb
          rw [List.mem_singleton] at hb
          subst hb
          simpa using hclear a ha

/-- C6 witness: inserting a second snapshot named snap into project p1
fails on the concrete fixture database, and the uniqueness invariant
survives a concrete operation sequence. -/
theorem createSnapshot_name_unique_per_project_witness :
    (∃ e, createSnapshot exDupData "s9" 7 exDb = .error e)
    ∧ UniqueSnapshotNames (applySnapshotOps [exDupOp] exDb).snapshots :=
  ⟨createSnapshot_name_unique_per_project.1 exDb exDupData "s9" 7
      ⟨exSnapshot, by simp [exDb], rfl, rfl⟩,
   createSnapshot_name_unique_per_project.2 [exDupOp] exDb
      (by simp [exDb, UniqueSnapshotNames])⟩

/-- C7 counterexample: with two values queued for one tag (value 1 then
value 2, both enqueued at time 0) and both past their latency at time 100,
one processing pass writes only the newest value and empties the queue:
the older mature value 1 is never delivered to the runtime, so delivery is
not exactly-once. -/
theorem processTagQueue_drops_older_mature :
    processTagQueue 100 (fun _ => 2) [⟨1, 0⟩, ⟨2, 0⟩] = (some ⟨2, 0⟩, []) ∧
    (processTagQueue 100 (fun _ => 2) [⟨1, 0⟩, ⟨2, 0⟩]).1 ≠ some ⟨1, 0⟩ ∧
    (⟨1, 0⟩ : IOQueueItem) ∉ (processTagQueue 100 (fun _ => 2) [⟨1, 0⟩, ⟨2, 0⟩]).2 := by
  refine ⟨rfl, by decide, by decide⟩

/-- C7 amended: one processing pass of the latency queue writes at most
one value per tag -- the most recently enqueued mature one -- never writes
an immature value, and removes every mature value from the queue in the
same pass, so older mature values are coalesced away rather than
delivered; values are dequeued at most once, but not every value is
written. -/
theorem processTagQueue_coalesces (now : Nat) (lat : Nat → Nat) (queue : List IOQueueItem) :
    ((processTagQueue now lat queue).1 =
      ((queue.enum.filter (itemReady now lat)).map (·.2)).getLast?)
    ∧ (∀ it, (processTagQueue now lat queue).1 = some it →
        ∃ p ∈ queue.enum, p.2 = it ∧ itemReady now lat p = true)
    ∧ ((processTagQueue now lat queue).2.length +
        (queue.enum.countP (itemReady now lat)) = queue.length) := by
  have ha : (processTagQueue now lat queue).1 =
      ((queue.enum.filter (itemReady now lat)).map (·.2)).getLast? := by
    simp only [processTagQueue]
    split
    · rfl
    · next hlen =>
      have hempty : ((queue.enum.filter (itemReady now lat)).map (·.2)) = [] := by
        rcases h : (queue.enum.filter (itemReady now lat)).map (·.2) with _ | ⟨x, xs⟩
        · exact h
        · rw [h] at hlen
          exact absurd (by simp) hlen
      rw [hempty]
      rfl
  refine ⟨ha, ?_, ?_⟩
  · intro it h
    rw [ha] at h
    have hmem := List.mem_getLast?_eq_getLast (l := (queue.enum.filter
      (itemReady now lat)).map (·.2)) (x := it) h
    obtain ⟨hne, heq⟩ := hmem
    have : it ∈ (queue.enum.filter (itemReady now lat)).map (·.2) := by
      rw [heq]
      exact List.getLast_mem hne
    obtain ⟨p, hp, hpe⟩ := List.mem_map.mp this
    rw [List.mem_filter] at hp
    exact ⟨p, hp.1, hpe, hp.2⟩
  · simp only [processTagQueue]
    split
    · next hlen =>
      simp only [List.length_map, List.countP_eq_length_filter]
      have hsplit := (queue.enum).length_eq_countP_add_countP (itemReady now lat)
      simp only [List.countP_eq_length_filter] at hsplit
      have hq : queue.enum.length = queue.length := List.enum_length
      omega
    · next hlen =>
      have hzero : (queue.enum.countP (itemReady now lat)) = 0 := by
        rw [List.countP_eq_length_filter]
        rcases h : (queue.enum.filter (itemReady now lat)).map (·.2) with _ | ⟨x, xs⟩
        · simpa using congrArg List.length h
        · rw [h] at hlen
          exact absurd (by simp) hlen
      show queue.length + queue.enum.countP (itemReady now lat) = queue.length
      omega

/-- C7 witness: the amended statement instantiated on a single queued
item that is not yet mature at time 5: nothing is written and nothing is
dequeued. -/
theorem processTagQueue_coalesces_witness :
    (processTagQueue 5 (fun _ => 10) [⟨7, 1⟩]).2.length +
      (([⟨7, 1⟩] : List IOQueueItem).enum.countP (itemReady 5 (fun _ => 10))) = 1 :=
  (processTagQueue_coalesces 5 (fun _ => 10) [⟨7, 1⟩]).2.2

/-- C8 counterexample: with the default 16-bit range, the variable value
INT_MAX + 65537 = 98304 is "wrapped" to 32768, which still lies outside
[INT_MIN, INT_MAX]: the pass subtracts a single range width instead of
reducing modulo the range, so the claimed wrap back into range fails for
overflow amounts beyond one range width (one exception is still
recorded). -/
theorem overflow_wrap_escapes_range :
    updateVariablesWithOverflowCheck defaultOverflowConfig 0 [("X", 98304)] =
      ([("X", 32768)],
        [{ varName := "X", originalValue := 98304, overflowValue := 32768,
           timestamp := 0, type := "INT_OVERFLOW" }]) ∧
    ¬((32768 : Int) ≤ defaultOverflowConfig.intMax) := by
  exact ⟨rfl, by decide⟩

/-- Helper: the overflow-detected flag is exactly the out-of-range test. -/
theorem overflowWrap_detected (cfg : OverflowConfig) (v : Int) :
    (overflowWrap cfg v).2 = decide (v < cfg.intMin ∨ cfg.intMax < v) := by
  simp only [overflowWrap]
  split
  · next h => simp [Or.inr h]
  · split
    · next h => simp [Or.inl h]
    · next h1 h2 =>
      have hno : ¬(v < cfg.intMin ∨ cfg.intMax < v) := by omega
      simp [hno]

/-- C8 amended: the overflow pass shifts an out-of-range integer by
exactly one range width: INT_MAX + k becomes INT_MIN + k - 1 and
INT_MIN - k becomes INT_MAX - k + 1, which lies inside
[INT_MIN, INT_MAX] precisely when the overflow amount k is at most
INT_MAX - INT_MIN + 1 (one range width; 65536 for the default
configuration) -- it is not a reduction modulo the range.  In-range values
are untouched, and the pass records exactly one INT_OVERFLOW exception per
out-of-range integer variable per cycle. -/
theorem overflow_single_wrap (cfg : OverflowConfig) (hrange : cfg.intMin ≤ cfg.intMax) :
    (∀ k : Int, 0 < k →
      (overflowWrap cfg (cfg.intMax + k)).1 = cfg.intMin + k - 1 ∧
      ((cfg.intMin ≤ cfg.intMin + k - 1 ∧ cfg.intMin + k - 1 ≤ cfg.intMax) ↔
        k ≤ cfg.intMax - cfg.intMin + 1) ∧
      (overflowWrap cfg (cfg.intMin - k)).1 = cfg.intMax - k + 1 ∧
      ((cfg.intMin ≤ cfg.intMax - k + 1 ∧ cfg.intMax - k + 1 ≤ cfg.intMax) ↔
        k ≤ cfg.intMax - cfg.intMin + 1))
    ∧ (∀ v : Int, cfg.intMin ≤ v → v ≤ cfg.intMax → overflowWrap cfg v = (v, false))
    ∧ (∀ (now : Nat) (vars : List (String × Int)),
        (updateVarsOverflow cfg now vars).2.length =
          vars.countP (fun nv => decide (nv.2 < cfg.intMin ∨ cfg.intMax < nv.2))) := by
  refine ⟨?_, ?_, ?_⟩
  · intro k hk
    have hc1 : cfg.intMax < cfg.intMax + k := by omega
    have hc2 : ¬(cfg.intMax < cfg.intMin - k) := by omega
    have hc3 : cfg.intMin - k < cfg.intMin := by omega
    refine ⟨?_, by omega, ?_, by omega⟩
    · simp only [overflowWrap, if_pos hc1]
      omega
    · simp only [overflowWrap, if_neg hc2, if_pos hc3]
      omega
  · intro v h1 h2
    have hc1 : ¬(cfg.intMax < v) := by omega
    have hc2 : ¬(v < cfg.intMin) := by omega
    simp only [overflowWrap, if_neg hc1, if_neg hc2]
  · intro now vars
    induction vars with
    | nil => rfl
    | cons nv rest ih =>
      simp only [updateVarsOverflow]
      rw [List.countP_cons]
      by_cases h : (nv.2 < cfg.intMin ∨ cfg.intMax < nv.2)
      · have hd : (overflowWrap cfg nv.2).2 = true := by
          rw [overflowWrap_detected]
          simpa using h
        simp [hd, ih, h]
      · have hd : (overflowWrap cfg nv.2).2 = false := by
          rw [overflowWrap_detected]
          simpa using h
        simp [hd, ih, h]

/-- C8 witness: the amended statement instantiated on the default
configuration with overflow amount k = 65537: the wrapped value
INT_MIN + 65537 - 1 = 32768 is out of range since k exceeds the range
width 65536. -/
theorem overflow_single_wrap_witness :
    (overflowWrap defaultOverflowConfig (defaultOverflowConfig.intMax + 65537)).1 =
      defaultOverflowConfig.intMin + 65537 - 1 ∧
    ((defaultOverflowConfig.intMin ≤ defaultOverflowConfig.intMin + 65537 - 1 ∧
        defaultOverflowConfig.intMin + 65537 - 1 ≤ defaultOverflowConfig.intMax) ↔
      (65537 : Int) ≤ defaultOverflowConfig.intMax - defaultOverflowConfig.intMin + 1) :=
  ⟨((overflow_single_wrap defaultOverflowConfig (by decide)).1 65537 (by decide)).1,
   ((overflow_single_wrap defaultOverflowConfig (by decide)).1 65537 (by decide)).2.1⟩

/-- C9 counterexample: injecting VALUE_DRIFT on tag T and then LOCK_VALUE
on the same tag leaves exactly one active fault on T -- the LOCK_VALUE
one.  The activeFaults map is keyed by target alone, so the second
injection replaced the drift fault even though its kind differs: faults of
different kinds cannot be simultaneously active on one tag. -/
theorem injectFault_replaces_other_kind :
    exFaultState1.activeFaults.map (fun p => p.2.type) = ["VALUE_DRIFT"] ∧
    exFaultState2.activeFaults.map (fun p => p.2.type) = ["LOCK_VALUE"] ∧
    exFaultState2.activeFaults.length = 1 ∧
    exFaultState2.activeFaults.filter (fun p => p.2.type = "VALUE_DRIFT") = [] := by
  exact ⟨rfl, rfl, rfl, rfl⟩

/-- Helper: injectFault updates activeFaults with Map.set of the new fault
object under the target key; the drift-state branches do not touch
activeFaults. -/
theorem injectFault_activeFaults_eq (cfg : FaultConfig) (now : Nat) (cur : Int)
    (st : FaultState) :
    (injectFault cfg now cur st).activeFaults =
      mapSetFault cfg.target
        { id := "fault_" ++ toString now, target := cfg.target, type := cfg.fault_type,
          parameter := cfg.parameter, duration := cfg.duration_ms, startTime := now,
          endTime := now + cfg.duration_ms, active := true } st.activeFaults := by
  simp only [injectFault]
  split_ifs <;> rfl

/-- Helper: association-list lookup finds a matching head. -/
theorem lookup_cons_self (a : String) (v : ActiveFault) (l : List (String × ActiveFault)) :
    List.lookup a ((a, v) :: l) = some v := by
  simp [List.lookup]

/-- Helper: association-list lookup skips a non-matching head. -/
theorem lookup_cons_ne (a : String) (p : String × ActiveFault)
    (l : List (String × ActiveFault)) (h : (a == p.1) = false) :
    List.lookup a (p :: l) = List.lookup a l := by
  rcases p with ⟨x, y⟩
  simp only [List.lookup]
  simp only at h
  rw [h]

/-- Helper: replacing the bindings of an existing key makes lookup of that
key return the new value. -/
theorem lookup_map_replace (k : String) (v : ActiveFault)
    (m : List (String × ActiveFault)) (hany : m.any (fun p => p.1 = k) = true) :
    (m.map (fun p => if p.1 = k then (k, v) else p)).lookup k = some v := by
  induction m with
  | nil => simp at hany
  | cons p rest ih =>
    simp only [List.any_cons, Bool.or_eq_true, decide_eq_true_eq] at hany
    rw [List.map_cons]
    by_cases hp : p.1 = k
    · rw [if_pos hp, lookup_cons_self]
    · have htail : rest.any (fun q => q.1 = k) = true := by
        rcases hany with h | h
        · exact absurd h hp
        · exact h
      rw [if_neg hp,
        lookup_cons_ne k p _ (beq_eq_false_iff_ne.mpr (fun h => hp h.symm))]
      exact ih htail

/-- Helper: appending a fresh binding makes lookup of its key return it. -/
theorem lookup_append_fresh (k : String) (v : ActiveFault)
    (m : List (String × ActiveFault)) (hany : m.any (fun p => p.1 = k) = false) :
    (m ++ [(k, v)]).lookup k = some v := by
  induction m with
  | nil => simp [List.lookup]
  | cons p rest ih =>
    rw [List.any_eq_false] at hany
    have hp : ¬(p.1 = k) := by simpa using hany p (by simp)
    have htail : rest.any (fun q => q.1 = k) = false := by
      rw [List.any_eq_false]
      intro x hx
      exact hany x (by simp [hx])
    rw [List.cons_append,
      lookup_cons_ne k p _ (beq_eq_false_iff_ne.mpr (fun h => hp h.symm))]
    exact ih htail

/-- Helper: replacing the bindings of key k does not affect lookups of any
other key. -/
theorem lookup_map_set_ne (k k' : String) (v : ActiveFault)
    (m : List (String × ActiveFault)) (hne : k' ≠ k) :
    (m.map (fun p => if p.1 = k then (k, v) else p)).lookup k' = m.lookup k' := by
  induction m with
  | nil => rfl
  | cons p rest ih =>
    rw [List.map_cons]
    by_cases hp : p.1 = k
    · rw [if_pos hp,
        lookup_cons_ne k' (k, v) _ (beq_eq_false_iff_ne.mpr hne),
        lookup_cons_ne k' p _ (beq_eq_false_iff_ne.mpr (fun h => hne (hp ▸ h)))]
      exact ih
    · rw [if_neg hp]
      cases hk : (k' == p.1)
      · rw [lookup_cons_ne k' p _ hk, lookup_cons_ne k' p _ hk]
        exact ih
      · rcases p with ⟨x, y⟩
        simp only at hk
        simp [List.lookup, hk]

/-- Helper: appending a binding for key k does not affect lookups of any
other key. -/
theorem lookup_append_single_ne (k k' : String) (v : ActiveFault)
    (m : List (String × ActiveFault)) (hne : k' ≠ k) :
    ((m ++ [(k, v)]).lookup k') = m.lookup k' := by
  induction m with
  | nil => simp [List.lookup, beq_eq_false_iff_ne.mpr hne]
  | cons p rest ih =>
    rw [List.cons_append]
    cases hk : (k' == p.1)
    · rw [lookup_cons_ne k' p _ hk, lookup_cons_ne k' p _ hk]
      exact ih
    · rcases p with ⟨x, y⟩
      simp only at hk
      simp [List.lookup, hk]

/-- Helper: Map.set keeps the key list unchanged when the key exists and
appends the key otherwise. -/
theorem mapSetFault_keys (k : String) (v : ActiveFault)
    (m : List (String × ActiveFault)) :
    (mapSetFault k v m).map (fun p => p.1) =
      (if m.any (fun p => p.1 = k) then m.map (fun p => p.1)
       else m.map (fun p => p.1) ++ [k]) := by
  unfold mapSetFault
  split
  · rw [List.map_map]
    apply List.map_congr_left
    intro p hp
    by_cases hpk : p.1 = k
    · simp [hpk]
    · simp [hpk]
  · simp

/-- C9 amended: activeFaults is keyed by target tag name alone: after any
injection the target carries exactly the newly injected fault (whatever
kind was active there before is replaced, same kind or not), every other
tag's entry is untouched, the one-fault-per-tag key uniqueness is
preserved, and the map grows only when the tag had no active fault. -/
theorem injectFault_single_fault_per_tag (cfg : FaultConfig) (now : Nat) (cur : Int)
    (st : FaultState) :
    (((injectFault cfg now cur st).activeFaults.lookup cfg.target).map
        (fun f => f.type) = some cfg.fault_type)
    ∧ (∀ k, k ≠ cfg.target →
        (injectFault cfg now cur st).activeFaults.lookup k = st.activeFaults.lookup k)
    ∧ ((st.activeFaults.map (fun p => p.1)).Nodup →
        ((injectFault cfg now cur st).activeFaults.map (fun p => p.1)).Nodup)
    ∧ ((injectFault cfg now cur st).activeFaults.length =
        if st.activeFaults.any (fun p => p.1 = cfg.target) then st.activeFaults.length
        else st.activeFaults.length + 1) := by
  rw [injectFault_activeFaults_eq]
  refine ⟨?_, ?_, ?_, ?_⟩
  · unfold mapSetFault
    by_cases hany : st.activeFaults.any (fun p => p.1 = cfg.target) = true
    · rw [if_pos hany, lookup_map_replace _ _ _ hany]
      rfl
    · rw [if_neg hany]
      have hf : st.activeFaults.any (fun p => p.1 = cfg.target) = false := by
        rcases hb : st.activeFaults.any (fun p => p.1 = cfg.target)
        · rfl
        · exact absurd hb hany
      rw [lookup_append_fresh _ _ _ hf]
      rfl
  · intro k hk
    unfold mapSetFault
    split
    · exact lookup_map_set_ne _ _ _ _ hk
    · exact lookup_append_single_ne _ _ _ _ hk
  · intro h
    rw [mapSetFault_keys]
    split
    · exact h
    · next hany =>
      have hnotin : cfg.target ∉ st.activeFaults.map (fun p => p.1) := by
        intro hmem
        refine hany ?_
        rw [List.any_eq_true]
        obtain ⟨p, hp, hpe⟩ := List.mem_map.mp hmem
        exact ⟨p, hp, by simp [hpe]⟩
      simp [List.nodup_append, h, hnotin]
  · unfold mapSetFault
    split
    · simp
    · simp

/-- C9 witness: the amended statement instantiated on the concrete drift
fault injected into the empty state. -/
theorem injectFault_single_fault_per_tag_witness :
    ((injectFault exDriftConfig 0 10 exFaultState0).activeFaults.lookup "T").map
        (fun f => f.type) = some "VALUE_DRIFT" :=
  (injectFault_single_fault_per_tag exDriftConfig 0 10 exFaultState0).1

/-- C5 counterexample: the delta roundtrip fails.  Replacing the single
line a by b yields b\na instead of b (the modification case of createDelta
emits an add without a matching delete), and even the pure append of three
lines comes back permuted (a to a\nb\nc\nd yields a\nb\nd\nc, because
applyDelta clamps out-of-range splice indices). -/
theorem delta_roundtrip_fails :
    (applyDelta "a".toList (createDelta "a".toList "b".toList)).toOption =
      some "b\na".toList
    ∧ "b\na".toList ≠ "b".toList
    ∧ (applyDelta "a".toList (createDelta "a".toList "a\nb\nc\nd".toList)).toOption =
        some "a\nb\nd\nc".toList
    ∧ "a\nb\nd\nc".toList ≠ "a\nb\nc\nd".toList := by
  refine ⟨by decide, by decide, by decide, by decide⟩

/-- Helper: peeling the first delete off an ascending delete run. -/
theorem ascDeletes_succ (s n : Nat) :
    ascDeletes s (n + 1) = DeltaChange.delete s :: ascDeletes (s + 1) n := by
  unfold ascDeletes
  rw [List.range_succ_eq_map, List.map_cons, List.map_map]
  refine congrArg₂ _ (by simp) ?_
  apply List.map_congr_left
  intro k _
  simp only [Function.comp_apply]
  refine congrArg _ (by omega)

/-- Helper: peeling the last delete off an ascending delete run. -/
theorem ascDeletes_concat (s n : Nat) :
    ascDeletes s (n + 1) = ascDeletes s n ++ [DeltaChange.delete (s + n)] := by
  unfold ascDeletes
  rw [List.range_succ]
  simp

/-- Helper: the delete tail phase of createDelta is an ascending run. -/
theorem deleteRun_eq_asc (t : List (List Char)) (s : Nat) :
    deleteRun t s = ascDeletes s t.length := by
  induction t generalizing s with
  | nil => rfl
  | cons x ts ih =>
    rw [List.length_cons, ascDeletes_succ, deleteRun, ih]

/-- Helper (Lemma A): when the new line list p is a prefix of the old line
list p ++ t, the createDelta loop matches p away and emits exactly the
ascending run of deletes for the t trailing old lines. -/
theorem createDeltaGo_prefix (p t : List (List Char)) (i j : Nat) :
    createDeltaGo (p ++ t) p i j = ascDeletes (i + p.length) t.length := by
  induction p generalizing i j with
  | nil =>
    rcases t with _ | ⟨x, ts⟩
    · rfl
    · show deleteRun (x :: ts) i = _
      rw [deleteRun_eq_asc]
      simp
  | cons l ps ih =>
    show createDeltaGo (l :: (ps ++ t)) (l :: ps) i j = _
    rw [createDeltaGo, if_pos rfl, ih]
    rw [List.length_cons]
    refine congrArg₂ _ (by omega) rfl

/-- Helper: descending run, first element view. -/
theorem descDeletes_cons (s n : Nat) :
    descDeletes s (n + 1) = DeltaChange.delete (s + n) :: descDeletes s n := by
  unfold descDeletes
  rw [ascDeletes_concat]
  simp

/-- Helper: descending run, last element view. -/
theorem descDeletes_concat (s n : Nat) :
    descDeletes s (n + 1) = descDeletes (s + 1) n ++ [DeltaChange.delete s] := by
  unfold descDeletes
  rw [ascDeletes_succ]
  simp

/-- Helper: every change in a descending delete run is a delete at an
offset below the run length. -/
theorem mem_descDeletes (s n : Nat) (b : DeltaChange) (h : b ∈ descDeletes s n) :
    ∃ k, k < n ∧ b = DeltaChange.delete (s + k) := by
  unfold descDeletes ascDeletes at h
  rw [List.mem_reverse] at h
  obtain ⟨k, hk, hb⟩ := List.mem_map.mp h
  exact ⟨k, List.mem_range.mp hk, hb.symm⟩

/-- Helper: orderedInsert appends the element at the end when it precedes
nothing in the list. -/
theorem orderedInsert_append_of_forall_not (a : DeltaChange) (l : List DeltaChange)
    (h : ∀ b ∈ l, ¬ (b.lineOf ≤ a.lineOf)) :
    List.orderedInsert (fun a b => b.lineOf ≤ a.lineOf) a l = l ++ [a] := by
  induction l with
  | nil => rfl
  | cons b l ih =>
    rw [List.orderedInsert, if_neg (h b (by simp))]
    rw [ih (fun c hc => h c (by simp [hc]))]
    rfl

/-- Helper (Lemma B): sorting an ascending delete run with the descending
comparator of applyDelta reverses it. -/
theorem insertionSort_ascDeletes (s n : Nat) :
    List.insertionSort (fun a b => b.lineOf ≤ a.lineOf) (ascDeletes s n) =
      descDeletes s n := by
  induction n generalizing s with
  | zero => rfl
  | succ n ih =>
    rw [ascDeletes_succ, List.insertionSort, ih (s + 1)]
    rw [orderedInsert_append_of_forall_not _ _ ?_]
    · rw [← descDeletes_concat]
    · intro b hb
      obtain ⟨k, hk, hbe⟩ := mem_descDeletes (s + 1) n b hb
      subst hbe
      simp only [DeltaChange.lineOf]
      omega

/-- Helper: erasing at the index of the last element drops exactly it. -/
theorem eraseIdx_concat {α : Type} (l : List α) (x : α) :
    (l ++ [x]).eraseIdx l.length = l := by
  induction l with
  | nil => rfl
  | cons a l ih =>
    simp only [List.cons_append, List.length_cons, List.eraseIdx]
    rw [List.append_eq, ih]

/-- Helper (Lemma C): folding the descending delete run over the base
lines removes exactly the t trailing lines. -/
theorem foldl_descDeletes (p : List (List Char)) :
    ∀ t : List (List Char),
      (descDeletes p.length t.length).foldl applyOneChange (p ++ t) = p := by
  intro t
  induction t using List.reverseRecOn with
  | nil => simp [descDeletes, ascDeletes]
  | append_singleton ts x ih =>
    rw [List.length_append, List.length_singleton, descDeletes_cons, List.foldl_cons]
    have h1 : applyOneChange (p ++ (ts ++ [x]))
        (DeltaChange.delete (p.length + ts.length)) = p ++ ts := by
      simp only [applyOneChange, spliceRemove]
      rw [← List.append_assoc, ← List.length_append]
      exact eraseIdx_concat (p ++ ts) x
    rw [h1, ih]

/-- C5 amended: the delta roundtrip does hold in the pure
trailing-deletion case: whenever the new content's line list is a prefix
of the base content's line list (so the delta is a run of deletes of the
trailing base lines; base = new included), applyDelta of createDelta
reconstructs the new content exactly.  In general the roundtrip fails:
single-line modification and multi-line appends are both reconstructed
incorrectly. -/
theorem delta_roundtrip_trailing_deletions (base new : List Char)
    (p t : List (List Char))
    (hb : base.splitOn '\n' = p ++ t) (hn : new.splitOn '\n' = p) :
    applyDelta base (createDelta base new) = .ok new := by
  simp only [applyDelta, createDelta]
  rw [if_neg (by simp)]
  rw [hb, hn, createDeltaGo_prefix, Nat.zero_add, insertionSort_ascDeletes,
    foldl_descDeletes]
  rw [← hn, List.intercalate_splitOn]

/-- C5 witness: the amended statement instantiated on base x\ny and new x:
the roundtrip reconstructs x exactly. -/
theorem delta_roundtrip_trailing_deletions_witness :
    applyDelta "x\ny".toList (createDelta "x\ny".toList "x".toList) = .ok "x".toList :=
  delta_roundtrip_trailing_deletions "x\ny".toList "x".toList
    ["x".toList] ["y".toList] (by decide) (by decide)
